import Mathlib

/-!
Shallow embedding of `src/downloading_pdf.py`.

The script defines two functions:
* `download_pdf(url, output_dir, filename)` — one HTTP GET, filename
  resolution, streaming write, returning `True`/`False`, with all
  exceptions caught at its own boundary;
* `download_pdfs_from_list(urls, output_dir, delay)` — a sequential loop
  over the URLs calling `download_pdf(url.strip(), output_dir)` and
  collecting the original strings into `successful`/`failed`, sleeping
  `delay` seconds after each attempt when `delay > 0`.

The external world (filesystem and HTTP transport) is modelled by an
explicit environment `Env`; Python strings are modelled by `String`
(`List Char` underneath) with the Python string operations the script
uses re-implemented by structural recursion so that concrete runs reduce
inside the kernel.
-/

namespace PdfDl

/-- Python `str.split(sep)` helper: if `sub` is a leading block of `s`,
return the remainder of `s` after it. -/
def dropSub? : List Char → List Char → Option (List Char)
  | [], s => some s
  | _ :: _, [] => none
  | a :: as, b :: bs => if a == b then dropSub? as bs else none

/-- First occurrence of `sep` inside `s`: `some (before, after)` where
`s = before ++ sep ++ after` at the leftmost match, `none` when `sep`
does not occur. -/
def firstSplit (sep : List Char) : List Char → Option (List Char × List Char)
  | [] =>
    match dropSub? sep [] with
    | some r => some ([], r)
    | none => none
  | c :: rest =>
    match dropSub? sep (c :: rest) with
    | some r => some ([], r)
    | none =>
      match firstSplit sep rest with
      | some (b, a) => some (c :: b, a)
      | none => none

/-- The part of `s` before the first occurrence of `sep` (all of `s` when
`sep` does not occur): element `[0]` of Python `s.split(sep)`. -/
def beforeSub (sep s : List Char) : List Char :=
  match firstSplit sep s with
  | some (b, _) => b
  | none => s

/-- Python `sub in s` (substring containment). -/
def pyContains (s sub : String) : Bool :=
  (firstSplit sub.data s.data).isSome

/-- Element `[1]` of Python `s.split(sep)`: the block between the first and
the second occurrence of `sep` (to the end when `sep` occurs once).
Returns `""` when `sep` does not occur at all; the script only evaluates
this under an `in` guard, where Python would have a `[1]` element. -/
def splitIdx1 (s sep : String) : String :=
  match firstSplit sep.data s.data with
  | some (_, after) => String.mk (beforeSub sep.data after)
  | none => ""

/-- Does the second list begin with the first? -/
def startsList : List Char → List Char → Bool
  | [], _ => true
  | _ :: _, [] => false
  | a :: as, b :: bs => a == b && startsList as bs

/-- Python `s.endswith(suffix)`. -/
def pyEndsWith (s suffix : String) : Bool :=
  startsList suffix.data.reverse s.data.reverse

/-- Python `str.strip('"')`: remove every leading and trailing `"`. -/
def stripQuotes (s : String) : String :=
  String.mk (((s.data.dropWhile (· == '"')).reverse.dropWhile (· == '"')).reverse)

/-- The characters Python `str.strip()` (no argument) removes, restricted
to ASCII. -/
def pySpace (c : Char) : Bool :=
  c == ' ' || c == '\t' || c == '\n' || c == '\r' || c == Char.ofNat 11 || c == Char.ofNat 12

/-- Python `str.strip()`. -/
def pyStrip (s : String) : String :=
  String.mk (((s.data.dropWhile pySpace).reverse.dropWhile pySpace).reverse)

/-- Python `str.lower()` (ASCII). -/
def pyLower (s : String) : String :=
  String.mk (s.data.map Char.toLower)

/-- Hexadecimal digit value, as in `urllib.parse.unquote`. -/
def hexDigit? (c : Char) : Option Nat :=
  if '0' ≤ c ∧ c ≤ '9' then some (c.toNat - 48)
  else if 'a' ≤ c ∧ c ≤ 'f' then some (c.toNat - 87)
  else if 'A' ≤ c ∧ c ≤ 'F' then some (c.toNat - 55)
  else none

/-- `urllib.parse.unquote`, on the byte level for ASCII: each valid `%XX`
block decodes to the character with code `XX`, invalid blocks stay as
they are (multi-byte UTF-8 percent sequences are outside the model; the
script never feeds them in the verified scenarios). -/
def unquoteList : List Char → List Char
  | [] => []
  | '%' :: a :: b :: rest =>
    match hexDigit? a, hexDigit? b with
    | some x, some y => Char.ofNat (16 * x + y) :: unquoteList rest
    | _, _ => '%' :: unquoteList (a :: b :: rest)
  | c :: rest => c :: unquoteList rest

/-- `urllib.parse.unquote` on `String`. -/
def unquote (s : String) : String :=
  String.mk (unquoteList s.data)

/-- `os.path.basename` (POSIX): everything after the last `/`. -/
def pyBasename (s : String) : String :=
  String.mk ((s.data.reverse.takeWhile (fun c => c != '/')).reverse)

/-- `os.path.join` (POSIX) for the two-argument call the script makes. -/
def pyJoin (a b : String) : String :=
  match b.data with
  | '/' :: _ => b
  | _ => if a == "" || pyEndsWith a "/" then a ++ b else a ++ "/" ++ b

-- A few concrete sanity checks of the primitives.
example : pyContains "attachment; filename=x" "filename=" = true := by decide
example : splitIdx1 "attachment; filename=\"a.pdf\"" "filename=" = "\"a.pdf\"" := by decide
example : stripQuotes "\"a.pdf\"" = "a.pdf" := by decide
example : pyEndsWith "report.pdf" ".pdf" = true := by decide
example : pyStrip "  x \n" = "x" := by decide
example : unquote "a%20b.pdf" = "a b.pdf" := by decide
example : pyBasename "/x/y/report.pdf" = "report.pdf" := by decide
example : pyJoin "out" "a.pdf" = "out/a.pdf" := by decide

/-! ### `urllib.parse.urlparse(url).path` -/

/-- A character of `urllib.parse.scheme_chars`. -/
def schemeChar (c : Char) : Bool :=
  c.isAlpha || c.isDigit || c == '+' || c == '-' || c == '.'

/-- The scheme-stripping step of `urlsplit`: when the text before the first
`:` is a non-empty run of scheme characters starting with a letter, drop
it together with the `:`. -/
def stripScheme (u : List Char) : List Char :=
  match firstSplit [':'] u with
  | some (c :: before, after) =>
    if c.isAlpha && (c :: before).all schemeChar then after else u
  | _ => u

/-- The netloc-stripping step of `urlsplit`: when the remainder starts with
`//`, drop the authority, which runs until the first `/`, `?` or `#`. -/
def dropNetloc (u : List Char) : List Char :=
  match u with
  | '/' :: '/' :: rest => rest.dropWhile (fun c => c != '/' && c != '?' && c != '#')
  | _ => u

/-- The params-splitting step of `urlparse` (`_splitparams`), applied to the
path when it contains a `;`: cut at the first `;` of the last `/`-segment
(at the first `;` overall when the path has no `/`). -/
def splitParams (u : List Char) : List Char :=
  match firstSplit [';'] u with
  | none => u
  | some (b0, _) =>
    if (firstSplit ['/'] u).isSome then
      let seg := (u.reverse.takeWhile (fun c => c != '/')).reverse
      match firstSplit [';'] seg with
      | some (b, _) => u.take (u.length - seg.length) ++ b
      | none => u
    else b0

/-- `urllib.parse.urlparse(url).path`: strip the scheme, strip the netloc,
cut fragment and query, and split off params. -/
def urlPath (url : String) : String :=
  let u := stripScheme url.data
  let u := dropNetloc u
  let u := u.takeWhile (fun c => c != '#')
  let u := u.takeWhile (fun c => c != '?')
  String.mk (splitParams u)

example : urlPath "https://www.cmf.tn/sites/default/files/report.pdf" = "/sites/default/files/report.pdf" := by decide
example : urlPath "https://x.tn/a/b.pdf?dl=1#top" = "/a/b.pdf" := by decide
example : urlPath "https://x.tn" = "" := by decide

/-! ### The external world: filesystem and HTTP transport -/

/-- An HTTP response as the script observes it: status code, reason phrase
and headers (`requests` exposes the headers case-insensitively). The body
is irrelevant to every verified property and is left out; writing it is
the `Env.openError` effect below. -/
structure Response where
  status : Nat
  reason : String
  headers : List (String × String)
deriving Repr, DecidableEq

/-- Result of `requests.get`: a response, or a raised
`requests.exceptions.RequestException` carrying its message (connection
errors, timeouts, DNS failures). -/
inductive GetResult where
  | ok (resp : Response)
  | exn (msg : String)
deriving Repr, DecidableEq

/-- The Python exceptions the script's `try` block can raise: a
`requests.exceptions.RequestException` (the transport and
`raise_for_status` errors), an `OSError` (from `Path.mkdir` or `open`),
or any other `Exception`. -/
inductive PyExn where
  | requestException (msg : String)
  | osError (msg : String)
  | otherError (msg : String)
deriving Repr, DecidableEq

/-- `str(e)` of a modelled exception. -/
def PyExn.msg : PyExn → String
  | .requestException m => m
  | .osError m => m
  | .otherError m => m

/-- The deterministic external environment of one run: whether
`Path(dir).mkdir(parents=True, exist_ok=True)` raises (and with what
message), what `requests.get(url, ...)` yields, whether
`open(filepath, 'wb')`/the write loop raises, and `int(time.time())`. -/
structure Env where
  mkdirError : String → Option String
  get : String → GetResult
  openError : String → Option String
  now : Nat

/-- Case-insensitive header lookup, as `requests`'s `CaseInsensitiveDict`
does for `response.headers.get(...)` and `... in response.headers`. -/
def headerGet (headers : List (String × String)) (name : String) : Option String :=
  (headers.find? (fun h => pyLower h.1 == pyLower name)).map (·.2)

/-- The message of the `requests.exceptions.HTTPError` that
`response.raise_for_status()` raises for a 4xx/5xx status. -/
def raiseForStatusMsg (status : Nat) (reason url : String) : String :=
  if status < 500 then s!"{status} Client Error: {reason} for url: {url}"
  else s!"{status} Server Error: {reason} for url: {url}"

/-- The synthesized fallback filename `f"document_{int(time.time())}.pdf"`. -/
def docName (now : Nat) : String :=
  "document_" ++ toString now ++ ".pdf"

/-- The name the script parses out of a `Content-Disposition` header
(source lines 39–42): `content_disp.split('filename=')[1].strip('"')`
when the header is present and contains `filename=`; `""` (Python-falsy,
like the untouched `None`) otherwise. -/
def cdFilename (headers : List (String × String)) : String :=
  match headerGet headers "Content-Disposition" with
  | some cd => if pyContains cd "filename=" then stripQuotes (splitIdx1 cd "filename=") else ""
  | none => ""

/-- Filename resolution of `download_pdf` (source lines 36–55), given
`int(time.time())`, the `filename` argument (`none` models Python
`None`), the response headers and the URL. Mirrors the source statement
by statement, including the Python truthiness tests `if not filename`. -/
def resolveFilename (now : Nat) (filename0 : Option String) (headers : List (String × String)) (url : String) : String :=
  let f1 : String := match filename0 with | none => "" | some s => s
  let f2 :=
    if f1 == "" then
      let fcd := cdFilename headers
      let f3 := if fcd == "" then unquote (pyBasename (urlPath url)) else fcd
      if f3 == "" || !(pyEndsWith f3 ".pdf") then docName now else f3
    else f1
  if !(pyEndsWith f2 ".pdf") then f2 ++ ".pdf" else f2

example : resolveFilename 5 none [] "https://x.tn/a/report.pdf" = "report.pdf" := by decide
example : resolveFilename 5 none [] "https://x.tn" = "document_5.pdf" := by decide
example : resolveFilename 5 none [("Content-Disposition", "attachment; filename=\"r_2020.pdf\"")] "https://x.tn/a.pdf" = "r_2020.pdf" := by decide
example : resolveFilename 5 (some "out") [] "https://x.tn/a.pdf" = "out.pdf" := by decide
example : resolveFilename 5 none [("Content-Disposition", "attachment; filename=\"r\"")] "https://x.tn/a.pdf" = "document_5.pdf" := by decide

/-! ### `download_pdf` -/

/-- What one call of `download_pdf` returns and does: the boolean the
function returns, the filename it wrote inside `output_dir` (when the
write completed), and the lines it printed, in order. -/
structure FetchResult where
  success : Bool
  savedAs : Option String
  output : List String
deriving Repr, DecidableEq

/-- The `try` block of `download_pdf` (source lines 20–67): the lines
printed before leaving the block, the filename written (when reached),
and either the resolved filename on normal completion or the raised
exception. The streaming write loop is abstracted into the single
`Env.openError` effect — its chunking never changes the outcome, only
the bytes on disk, which the verified properties do not mention. -/
def download_pdf_try (env : Env) (url outputDir : String) (filename0 : Option String) :
    List String × Option String × Except PyExn String :=
  match env.mkdirError outputDir with
  | some m => ([], none, .error (.osError m))
  | none =>
    match env.get url with
    | .exn m => ([], none, .error (.requestException m))
    | .ok resp =>
      if 400 ≤ resp.status && resp.status < 600 then
        ([], none, .error (.requestException (raiseForStatusMsg resp.status resp.reason url)))
      else
        let contentType := pyLower ((headerGet resp.headers "content-type").getD "")
        let warn :=
          if pyContains contentType "application/pdf" then []
          else [s!"Warning: URL {url} might not be a PDF (Content-Type: {contentType})"]
        let fname := resolveFilename env.now filename0 resp.headers url
        let filepath := pyJoin outputDir fname
        match env.openError filepath with
        | some m => (warn, none, .error (.osError m))
        | none => (warn ++ [s!"Successfully downloaded: {fname}"], some fname, .ok fname)

/-- The line printed by the `except` clause that catches `e`:
`requests.exceptions.RequestException` hits the first handler, every
other `Exception` the second. -/
def handlerLine (url : String) : PyExn → String
  | .requestException m => s!"Error downloading {url}: {m}"
  | .osError m => s!"Unexpected error downloading {url}: {m}"
  | .otherError m => s!"Unexpected error downloading {url}: {m}"

/-- `download_pdf(url, output_dir, filename)` (source lines 8–74): run the
`try` block; on a raised exception, print the matching handler's line and
return `False`, otherwise return `True`. -/
def download_pdf (env : Env) (url outputDir : String) (filename0 : Option String) : FetchResult :=
  match download_pdf_try env url outputDir filename0 with
  | (out, saved, .ok _) => ⟨true, saved, out⟩
  | (out, saved, .error e) => ⟨false, saved, out ++ [handlerLine url e]⟩

/-! ### `download_pdfs_from_list` -/

/-- The observable steps of one batch run: a call
`download_pdf(url.strip(), output_dir)` with the argument it received,
or a `time.sleep(delay)`. -/
inductive BatchEvent where
  | attempt (url : String)
  | sleep (seconds : Int)
deriving Repr, DecidableEq

/-- `download_pdfs_from_list(urls, output_dir, delay)` (source lines
76–102): iterate the URLs in order; per URL, call
`download_pdf(url.strip(), output_dir)`, append the original `url` to
`successful` or `failed` by the boolean, then `time.sleep(delay)` when
`delay > 0`. Returns `(successful, failed, events)` where `events` is
the trace of fetch calls and sleeps in execution order. -/
def download_pdfs_from_list (env : Env) (urls : List String) (outputDir : String) (delay : Int) :
    List String × List String × List BatchEvent :=
  match urls with
  | [] => ([], [], [])
  | url :: rest =>
    let r := download_pdf env (pyStrip url) outputDir none
    let evts : List BatchEvent :=
      BatchEvent.attempt (pyStrip url) :: (if delay > 0 then [BatchEvent.sleep delay] else [])
    let tail := download_pdfs_from_list env rest outputDir delay
    if r.success then (url :: tail.1, tail.2.1, evts ++ tail.2.2)
    else (tail.1, url :: tail.2.1, evts ++ tail.2.2)

/-- The URL argument of an `attempt` event. -/
def attemptUrl? : BatchEvent → Option String
  | .attempt u => some u
  | .sleep _ => none

/-- Did `download_pdf(pyStrip u, dir)` succeed in `env`? The per-URL
outcome the batch driver branches on. -/
def fetchOk (env : Env) (dir : String) (u : String) : Bool :=
  (download_pdf env (pyStrip u) dir none).success

/-! ### Concrete environments used by the witnesses and counterexamples -/

/-- Headers of a well-behaved PDF response. -/
def pdfHeaders : List (String × String) := [("Content-Type", "application/pdf")]

/-- Every URL answers 200 with a PDF; filesystem healthy. -/
def envOk : Env :=
  { mkdirError := fun _ => none
    get := fun _ => .ok ⟨200, "OK", pdfHeaders⟩
    openError := fun _ => none
    now := 7 }

/-- The transport layer always raises a connection error. -/
def envDown : Env :=
  { mkdirError := fun _ => none
    get := fun _ => .exn "connection refused"
    openError := fun _ => none
    now := 7 }

/-- Every URL answers 404 Not Found. -/
def env404 : Env :=
  { mkdirError := fun _ => none
    get := fun _ => .ok ⟨404, "Not Found", pdfHeaders⟩
    openError := fun _ => none
    now := 7 }

/-- Every URL answers 304 Not Modified (a non-2xx status below 400). -/
def env304 : Env :=
  { mkdirError := fun _ => none
    get := fun _ => .ok ⟨304, "Not Modified", pdfHeaders⟩
    openError := fun _ => none
    now := 7 }

/-- Creating the output directory raises `OSError("boom")`. -/
def envMkdirBoom : Env :=
  { mkdirError := fun _ => some "boom"
    get := fun _ => .ok ⟨200, "OK", pdfHeaders⟩
    openError := fun _ => none
    now := 7 }

/-- The directory is fine but `open(filepath, 'wb')` raises
`OSError("boom")` — an "unexpected fault" unrelated to the directory. -/
def envOpenBoom : Env :=
  { mkdirError := fun _ => none
    get := fun _ => .ok ⟨200, "OK", pdfHeaders⟩
    openError := fun _ => some "boom"
    now := 7 }

/-- A 200 PDF response that also carries a `Content-Disposition` filename. -/
def envCD : Env :=
  { mkdirError := fun _ => none
    get := fun _ => .ok ⟨200, "OK",
      [("Content-Type", "application/pdf"),
       ("Content-Disposition", "attachment; filename=\"report_2020.pdf\"")]⟩
    openError := fun _ => none
    now := 7 }

-- Concrete runs of the fetcher, matching a hand trace of the Python.
example : download_pdf envOk "https://x.tn/a.pdf" "out" none =
    ⟨true, some "a.pdf", ["Successfully downloaded: a.pdf"]⟩ := by decide
example : download_pdf envDown "https://x.tn/a.pdf" "out" none =
    ⟨false, none, ["Error downloading https://x.tn/a.pdf: connection refused"]⟩ := by decide
example : download_pdf env404 "https://x.tn/a.pdf" "out" none =
    ⟨false, none,
      ["Error downloading https://x.tn/a.pdf: 404 Client Error: Not Found for url: https://x.tn/a.pdf"]⟩ := by decide
example : download_pdf envMkdirBoom "https://x.tn/a.pdf" "out" none =
    ⟨false, none, ["Unexpected error downloading https://x.tn/a.pdf: boom"]⟩ := by decide
example : download_pdf envCD "https://x.tn/whatever" "out" none =
    ⟨true, some "report_2020.pdf", ["Successfully downloaded: report_2020.pdf"]⟩ := by decide
example : download_pdfs_from_list env404 ["https://x.tn/a.pdf", " https://x.tn/b.pdf "] "out" 1 =
    ([], ["https://x.tn/a.pdf", " https://x.tn/b.pdf "],
     [.attempt "https://x.tn/a.pdf", .sleep 1, .attempt "https://x.tn/b.pdf", .sleep 1]) := by decide

/-! ### General lemmas about the primitives -/

theorem startsList_self_append : ∀ l t : List Char, startsList l (l ++ t) = true
  | [], _ => rfl
  | a :: as, t => by simp [startsList, startsList_self_append as t]

/-- A string obtained by appending `t` ends with `t`. -/
theorem pyEndsWith_append (s t : String) : pyEndsWith (s ++ t) t = true := by
  show startsList t.data.reverse (s.data ++ t.data).reverse = true
  rw [List.reverse_append]
  exact startsList_self_append _ _

/-- The synthesized fallback name always ends in `.pdf`. -/
theorem docName_endsWith (now : Nat) : pyEndsWith (docName now) ".pdf" = true :=
  pyEndsWith_append ("document_" ++ toString now) ".pdf"

theorem takeWhile_append_stop (p : Char → Bool) (x : Char) (t : List Char) (hx : p x = false) :
    ∀ l : List Char, l.all p = true → (l ++ x :: t).takeWhile p = l := by
  intro l
  induction l with
  | nil => intro _; simp [List.takeWhile, hx]
  | cons a as ih =>
    intro h
    simp only [List.all_cons, Bool.and_eq_true] at h
    simp [List.takeWhile, h.1, ih h.2]

/-- `os.path.basename` of a path whose last segment is `n` (no `/` in `n`)
is `n`. -/
theorem pyBasename_last_segment (s n : String) (pd : List Char)
    (hn : n.data.all (fun c => c != '/') = true)
    (h : s.data = pd ++ '/' :: n.data) :
    pyBasename s = n := by
  show String.mk ((s.data.reverse.takeWhile (fun c => c != '/')).reverse) = n
  rw [h, List.reverse_append, List.reverse_cons, List.append_assoc]
  have h2 : (['/'] : List Char) ++ pd.reverse = '/' :: pd.reverse := rfl
  rw [h2]
  rw [takeWhile_append_stop _ '/' _ (by decide) _ (by simpa using hn)]
  simp

/-- `unquote` is the identity on percent-free text. -/
theorem unquoteList_eq_self : ∀ l : List Char, (∀ c ∈ l, c ≠ '%') → unquoteList l = l
  | [], _ => rfl
  | c :: rest, h => by
    have hc : c ≠ '%' := h c (by simp)
    have ih := unquoteList_eq_self rest (fun x hx => h x (by simp [hx]))
    rw [unquoteList.eq_def]
    split
    · rename_i heq
      exact absurd heq (List.cons_ne_nil c rest)
    · rename_i a b r heq
      injection heq with h1 _
      exact absurd h1 hc
    · rename_i heq
      injection heq with h1 h2
      rw [← h1, ← h2, ih]

theorem unquote_eq_self (n : String) (hn : ∀ c ∈ n.data, c ≠ '%') : unquote n = n := by
  show String.mk (unquoteList n.data) = n
  rw [unquoteList_eq_self n.data hn]

/-! ### General lemmas about the batch driver -/

/-- The per-URL event block of the batch loop. -/
def urlEvents (delay : Int) (u : String) : List BatchEvent :=
  BatchEvent.attempt (pyStrip u) :: (if delay > 0 then [BatchEvent.sleep delay] else [])

theorem batch_succ_eq_filter (env : Env) (dir : String) (delay : Int) :
    ∀ urls : List String,
      (download_pdfs_from_list env urls dir delay).1 = urls.filter (fetchOk env dir)
  | [] => rfl
  | url :: rest => by
    have ih := batch_succ_eq_filter env dir delay rest
    cases h : fetchOk env dir url with
    | true =>
      have h' : (download_pdf env (pyStrip url) dir none).success = true := h
      simp [download_pdfs_from_list, List.filter_cons, h, h', ih]
    | false =>
      have h' : (download_pdf env (pyStrip url) dir none).success = false := h
      simp [download_pdfs_from_list, List.filter_cons, h, h', ih]

theorem batch_fail_eq_filter (env : Env) (dir : String) (delay : Int) :
    ∀ urls : List String,
      (download_pdfs_from_list env urls dir delay).2.1 =
        urls.filter (fun u => !(fetchOk env dir u))
  | [] => rfl
  | url :: rest => by
    have ih := batch_fail_eq_filter env dir delay rest
    cases h : fetchOk env dir url with
    | true =>
      have h' : (download_pdf env (pyStrip url) dir none).success = true := h
      simp [download_pdfs_from_list, List.filter_cons, h, h', ih]
    | false =>
      have h' : (download_pdf env (pyStrip url) dir none).success = false := h
      simp [download_pdfs_from_list, List.filter_cons, h, h', ih]

theorem batch_events_eq (env : Env) (dir : String) (delay : Int) :
    ∀ urls : List String,
      (download_pdfs_from_list env urls dir delay).2.2 = urls.flatMap (urlEvents delay)
  | [] => rfl
  | url :: rest => by
    have ih := batch_events_eq env dir delay rest
    cases h : (download_pdf env (pyStrip url) dir none).success <;>
      simp [download_pdfs_from_list, urlEvents, h, ih]

/-- The fetch calls a batch run makes, in order, are exactly the stripped
URLs in input order. -/
theorem batch_attempts_eq (env : Env) (dir : String) (delay : Int) (urls : List String) :
    ((download_pdfs_from_list env urls dir delay).2.2).filterMap attemptUrl? =
      urls.map pyStrip := by
  rw [batch_events_eq]
  induction urls with
  | nil => rfl
  | cons url rest ih =>
    by_cases hd : delay > 0 <;>
      simp [urlEvents, hd, attemptUrl?, ih]

theorem length_filter_split (p : String → Bool) :
    ∀ l : List String, (l.filter p).length + (l.filter (fun a => !(p a))).length = l.length
  | [] => rfl
  | a :: l => by
    have ih := length_filter_split p l
    cases h : p a <;> simp [List.filter_cons, h] <;> omega

/-- 200 with a PDF for `https://x/a.pdf`, 404 for every other URL. -/
def envMixed : Env :=
  { mkdirError := fun _ => none
    get := fun u =>
      if u == "https://x/a.pdf" then .ok ⟨200, "OK", pdfHeaders⟩
      else .ok ⟨404, "Not Found", pdfHeaders⟩
    openError := fun _ => none
    now := 7 }

/-! ### The claims -/

/-- Claim C1: after `download_pdfs_from_list` completes, the lengths of the
successes and failures lists sum to the length of the input, and every
URL of the input appears in exactly one of the two lists. -/
theorem batch_partitions_input (env : Env) (urls : List String) (dir : String) (delay : Int) :
    (download_pdfs_from_list env urls dir delay).1.length +
      (download_pdfs_from_list env urls dir delay).2.1.length = urls.length ∧
    ∀ u ∈ urls,
      (u ∈ (download_pdfs_from_list env urls dir delay).1 ∧
        u ∉ (download_pdfs_from_list env urls dir delay).2.1) ∨
      (u ∈ (download_pdfs_from_list env urls dir delay).2.1 ∧
        u ∉ (download_pdfs_from_list env urls dir delay).1) := by
  rw [batch_succ_eq_filter, batch_fail_eq_filter]
  refine ⟨length_filter_split _ urls, ?_⟩
  intro u hu
  cases h : fetchOk env dir u with
  | true =>
    left
    refine ⟨List.mem_filter.mpr ⟨hu, h⟩, fun contra => ?_⟩
    have := (List.mem_filter.mp contra).2
    simp [h] at this
  | false =>
    right
    refine ⟨List.mem_filter.mpr ⟨hu, by simp [h]⟩, fun contra => ?_⟩
    have := (List.mem_filter.mp contra).2
    simp [h] at this

/-- Claim C1, witness: the two-URL batch of the spec's scenario (one URL
succeeds, the other 404s) partitions its input. -/
theorem batch_partitions_input_witness :
    ((download_pdfs_from_list envMixed ["https://x/a.pdf", "https://x/b.pdf"] "out" 1).1.length +
      (download_pdfs_from_list envMixed ["https://x/a.pdf", "https://x/b.pdf"] "out" 1).2.1.length = 2) ∧
    (("https://x/b.pdf" ∈ (download_pdfs_from_list envMixed ["https://x/a.pdf", "https://x/b.pdf"] "out" 1).1 ∧
        "https://x/b.pdf" ∉ (download_pdfs_from_list envMixed ["https://x/a.pdf", "https://x/b.pdf"] "out" 1).2.1) ∨
      ("https://x/b.pdf" ∈ (download_pdfs_from_list envMixed ["https://x/a.pdf", "https://x/b.pdf"] "out" 1).2.1 ∧
        "https://x/b.pdf" ∉ (download_pdfs_from_list envMixed ["https://x/a.pdf", "https://x/b.pdf"] "out" 1).1)) :=
  ⟨(batch_partitions_input envMixed ["https://x/a.pdf", "https://x/b.pdf"] "out" 1).1,
   (batch_partitions_input envMixed ["https://x/a.pdf", "https://x/b.pdf"] "out" 1).2
     "https://x/b.pdf" (by decide)⟩

/-- Claim C2: `download_pdf` always returns exactly one boolean outcome —
`True` exactly when its `try` block ran to completion — and converts
every exception the block raises (transport errors through
`requests.exceptions.RequestException`, anything else through the
generic `except Exception`) into a `False` outcome with the matching
handler's printed reason; being a total Lean function, it can never
propagate an exception past its boundary. -/
theorem fetch_outcome_total (env : Env) (url dir : String) (fn0 : Option String) :
    ((download_pdf env url dir fn0).success = true ↔
      ∃ name, (download_pdf_try env url dir fn0).2.2 = .ok name) ∧
    ∀ e : PyExn, (download_pdf_try env url dir fn0).2.2 = .error e →
      download_pdf env url dir fn0 =
        ⟨false, (download_pdf_try env url dir fn0).2.1,
          (download_pdf_try env url dir fn0).1 ++ [handlerLine url e]⟩ := by
  rcases htry : download_pdf_try env url dir fn0 with ⟨out, saved, r⟩
  cases r with
  | ok name =>
    constructor
    · simp [download_pdf, htry]
    · intro e he
      simp at he
  | error e0 =>
    constructor
    · simp [download_pdf, htry]
    · intro e he
      have he0 : e0 = e := by simpa using he
      subst he0
      simp [download_pdf, htry]

/-- Claim C2, witness: a connection error becomes a `False` outcome with
the transport handler's reason line. -/
theorem fetch_outcome_total_witness :
    download_pdf envDown "https://x.tn/a.pdf" "out" none =
      ⟨false, none, ["Error downloading https://x.tn/a.pdf: connection refused"]⟩ :=
  (fetch_outcome_total envDown "https://x.tn/a.pdf" "out" none).2
    (.requestException "connection refused") rfl

/-- Modelled from the amended C3 sentence: with no explicit filename, take
the `Content-Disposition`-parsed name when it is non-empty, else the
percent-decoded last path segment of the URL; when the name so obtained
is empty or does not end in `.pdf`, it is replaced by the synthesized
`document_<unix_timestamp>.pdf` (nothing is appended to it). -/
def resolveFilenameSpec (now : Nat) (headers : List (String × String)) (url : String) : String :=
  let cdName := cdFilename headers
  let name := if cdName != "" then cdName else unquote (pyBasename (urlPath url))
  if name != "" && pyEndsWith name ".pdf" then name else docName now

/-- Claim C3, counterexample: a `Content-Disposition` name without a
`.pdf` suffix is not completed to `annual_report.pdf` by appending, as
the claim states; the code discards it for the synthesized name. -/
theorem resolve_filename_append_cex :
    resolveFilename 0 none
        [("Content-Disposition", "attachment; filename=\"annual_report\"")] "https://x.tn/y" =
      "document_0.pdf" ∧
    resolveFilename 0 none
        [("Content-Disposition", "attachment; filename=\"annual_report\"")] "https://x.tn/y" ≠
      "annual_report.pdf" := by decide

/-- Claim C3 (amended): with no explicit filename the resolution order is
Content-Disposition name, else percent-decoded last URL path segment,
and a resolved name that is empty or lacks the `.pdf` suffix is replaced
by `document_<unix_timestamp>.pdf` — the `.pdf`-append step never fires
on this path (it only affects explicitly passed filenames). -/
theorem resolve_filename_order (now : Nat) (headers : List (String × String)) (url : String) :
    resolveFilename now none headers url = resolveFilenameSpec now headers url := by
  unfold resolveFilename resolveFilenameSpec
  cases hcd : cdFilename headers == "" <;>
    cases hu : unquote (pyBasename (urlPath url)) == "" <;>
      cases he1 : pyEndsWith (cdFilename headers) ".pdf" <;>
        cases he2 : pyEndsWith (unquote (pyBasename (urlPath url))) ".pdf" <;>
          simp [hcd, hu, he1, he2, docName_endsWith, bne]

/-- Claim C4, counterexample: a failure to create the target directory is
routed through the generic `except Exception` handler, so its outcome is
byte-for-byte the unexpected-error outcome — here identical to the
outcome of a run whose directory creation worked and whose `open` then
failed. There is no distinct "directory-error" reason. -/
theorem mkdir_failure_reason_not_distinct :
    download_pdf envMkdirBoom "https://x.tn/a.pdf" "out" none =
      download_pdf envOpenBoom "https://x.tn/a.pdf" "out" none ∧
    envMkdirBoom.mkdirError "out" = some "boom" ∧
    envOpenBoom.mkdirError "out" = none ∧
    (download_pdf envMkdirBoom "https://x.tn/a.pdf" "out" none).output =
      ["Unexpected error downloading https://x.tn/a.pdf: boom"] := by decide

/-- Claim C4 (amended): if creating the target directory fails, the
fetcher returns a `False` outcome, but through the generic
unexpected-fault handler: the printed reason is the unexpected-error
line, not a reason of its own. -/
theorem mkdir_failure_unexpected_reason (env : Env) (url dir : String) (fn0 : Option String)
    (m : String) (h : env.mkdirError dir = some m) :
    download_pdf env url dir fn0 =
      ⟨false, none, [s!"Unexpected error downloading {url}: {m}"]⟩ := by
  simp [download_pdf, download_pdf_try, h, handlerLine]

/-- Claim C4, witness: the amended statement at a concrete failing mkdir. -/
theorem mkdir_failure_unexpected_reason_witness :
    download_pdf envMkdirBoom "https://x.tn/a.pdf" "out" none =
      ⟨false, none, ["Unexpected error downloading https://x.tn/a.pdf: boom"]⟩ :=
  mkdir_failure_unexpected_reason envMkdirBoom "https://x.tn/a.pdf" "out" none "boom" rfl

/-- Claim C5, counterexample: a 304 response is non-2xx, yet
`raise_for_status` does not raise for it, so the fetcher saves the body
and returns `True` — not a failure outcome. -/
theorem non2xx_not_always_failure :
    (download_pdf env304 "https://x.tn/a.pdf" "out" none).success = true ∧
    env304.get "https://x.tn/a.pdf" = .ok ⟨304, "Not Modified", pdfHeaders⟩ ∧
    ¬(200 ≤ 304 ∧ 304 < 300) := by decide

/-- Claim C5 (amended): for every response with an HTTP status in
[400, 600) — the statuses `raise_for_status` treats as errors — the
fetcher returns a `False` outcome whose printed reason carries the
HTTP status text, and a batch run over such a URL receives that outcome
(the URL lands in `failed`), never an exception; statuses outside
[400, 600), 2xx or not, are not treated as errors. -/
theorem http_error_status_failure (env : Env) (url dir : String) (resp : Response)
    (hmk : env.mkdirError dir = none)
    (hget : env.get url = .ok resp)
    (h4 : 400 ≤ resp.status) (h6 : resp.status < 600) :
    (∀ fn0 : Option String,
      download_pdf env url dir fn0 =
        ⟨false, none, [s!"Error downloading {url}: {raiseForStatusMsg resp.status resp.reason url}"]⟩) ∧
    (pyStrip url = url → ∀ delay : Int,
      (download_pdfs_from_list env [url] dir delay).1 = [] ∧
      (download_pdfs_from_list env [url] dir delay).2.1 = [url]) := by
  have hc : (decide (400 ≤ resp.status) && decide (resp.status < 600)) = true := by
    simp [h4, h6]
  have hmain : ∀ fn0 : Option String,
      download_pdf env url dir fn0 =
        ⟨false, none, [s!"Error downloading {url}: {raiseForStatusMsg resp.status resp.reason url}"]⟩ := by
    intro fn0
    simp [download_pdf, download_pdf_try, hmk, hget, hc, handlerLine]
  refine ⟨hmain, fun hstrip delay => ?_⟩
  have hf : fetchOk env dir url = false := by
    unfold fetchOk
    rw [hstrip, hmain none]
  rw [batch_succ_eq_filter, batch_fail_eq_filter]
  simp [List.filter_cons, hf]

/-- Claim C5, witness: the amended statement at a concrete 404. -/
theorem http_error_status_failure_witness :
    (download_pdf env404 "https://x.tn/a.pdf" "out" none =
      ⟨false, none,
        ["Error downloading https://x.tn/a.pdf: 404 Client Error: Not Found for url: https://x.tn/a.pdf"]⟩) ∧
    ((download_pdfs_from_list env404 ["https://x.tn/a.pdf"] "out" 1).1 = [] ∧
      (download_pdfs_from_list env404 ["https://x.tn/a.pdf"] "out" 1).2.1 = ["https://x.tn/a.pdf"]) :=
  ⟨(http_error_status_failure env404 "https://x.tn/a.pdf" "out" ⟨404, "Not Found", pdfHeaders⟩
      rfl rfl (by decide) (by decide)).1 none,
   (http_error_status_failure env404 "https://x.tn/a.pdf" "out" ⟨404, "Not Found", pdfHeaders⟩
      rfl rfl (by decide) (by decide)).2 (by decide) 1⟩

/-- Claim C6: with no explicit filename and no `Content-Disposition`
header, a URL whose parsed path ends in `/report.pdf` resolves to
exactly `report.pdf`. -/
theorem url_basename_resolved (now : Nat) (headers : List (String × String)) (url pre : String)
    (hcd : headerGet headers "Content-Disposition" = none)
    (hpath : urlPath url = pre ++ "/report.pdf") :
    resolveFilename now none headers url = "report.pdf" := by
  have hb : pyBasename (urlPath url) = "report.pdf" :=
    pyBasename_last_segment (urlPath url) "report.pdf" pre.data (by decide)
      (by rw [hpath]; rfl)
  have hu : unquote (pyBasename (urlPath url)) = "report.pdf" := by
    rw [hb]; decide
  unfold resolveFilename cdFilename
  rw [hcd, hu]
  simp [show (("" : String) == "") = true from by decide,
        show (("report.pdf" : String) == "") = false from by decide,
        show pyEndsWith "report.pdf" ".pdf" = true from by decide]

/-- Claim C6, witness: a concrete CMF-style URL ending in `/report.pdf`. -/
theorem url_basename_resolved_witness :
    resolveFilename 7 none [] "https://www.cmf.tn/sites/files/report.pdf" = "report.pdf" :=
  url_basename_resolved 7 [] "https://www.cmf.tn/sites/files/report.pdf" "/sites/files"
    rfl (by decide)

/-- Claim C7: whenever the response carries
`Content-Disposition: attachment; filename="report_2020.pdf"` and no
explicit filename is passed, the file is saved as `report_2020.pdf`,
whatever the URL and its path are. -/
theorem content_disposition_name_saved (env : Env) (url dir : String) (resp : Response)
    (hmk : env.mkdirError dir = none)
    (hget : env.get url = .ok resp)
    (hst : (decide (400 ≤ resp.status) && decide (resp.status < 600)) = false)
    (hcd : headerGet resp.headers "Content-Disposition" =
      some "attachment; filename=\"report_2020.pdf\"")
    (hw : env.openError (pyJoin dir "report_2020.pdf") = none) :
    (download_pdf env url dir none).savedAs = some "report_2020.pdf" := by
  have hres : resolveFilename env.now none resp.headers url = "report_2020.pdf" := by
    have h1 : cdFilename resp.headers = "report_2020.pdf" := by
      unfold cdFilename
      rw [hcd]
      decide
    unfold resolveFilename
    rw [h1]
    simp [show (("" : String) == "") = true from by decide,
          show (("report_2020.pdf" : String) == "") = false from by decide,
          show pyEndsWith "report_2020.pdf" ".pdf" = true from by decide]
  simp [download_pdf, download_pdf_try, hmk, hget, hst, hres, hw]

/-- Claim C7, witness: the header scenario at a concrete environment and a
URL whose path has nothing to do with the saved name. -/
theorem content_disposition_name_saved_witness :
    (download_pdf envCD "https://x.tn/whatever" "out" none).savedAs = some "report_2020.pdf" :=
  content_disposition_name_saved envCD "https://x.tn/whatever" "out"
    ⟨200, "OK",
      [("Content-Type", "application/pdf"),
       ("Content-Disposition", "attachment; filename=\"report_2020.pdf\"")]⟩
    rfl rfl (by decide) (by decide) rfl

/-- Claim C8: the batch driver calls the fetcher sequentially, once per
URL, in input order and on the whitespace-stripped URL (the trace of
fetch calls is exactly `urls.map pyStrip`), and the successes and
failures lists are order-preserving sublists of the input, namely the
filters of the input by the per-URL outcome. -/
theorem batch_sequential_trimmed_ordered (env : Env) (urls : List String) (dir : String)
    (delay : Int) :
    ((download_pdfs_from_list env urls dir delay).2.2).filterMap attemptUrl? =
      urls.map pyStrip ∧
    (download_pdfs_from_list env urls dir delay).1 = urls.filter (fetchOk env dir) ∧
    (download_pdfs_from_list env urls dir delay).2.1 =
      urls.filter (fun u => !(fetchOk env dir u)) ∧
    ((download_pdfs_from_list env urls dir delay).1).Sublist urls ∧
    ((download_pdfs_from_list env urls dir delay).2.1).Sublist urls :=
  ⟨batch_attempts_eq env dir delay urls,
   batch_succ_eq_filter env dir delay urls,
   batch_fail_eq_filter env dir delay urls,
   by rw [batch_succ_eq_filter]; exact List.filter_sublist urls,
   by rw [batch_fail_eq_filter]; exact List.filter_sublist urls⟩

/-- Claim C9: when `delay > 0` the batch run sleeps `delay` seconds after
every fetch call, the last one included; when `delay ≤ 0` it never
sleeps. -/
theorem batch_sleeps_every_attempt (env : Env) (urls : List String) (dir : String)
    (delay : Int) :
    (delay > 0 →
      (download_pdfs_from_list env urls dir delay).2.2 =
        urls.flatMap (fun u => [BatchEvent.attempt (pyStrip u), BatchEvent.sleep delay])) ∧
    (delay ≤ 0 →
      (download_pdfs_from_list env urls dir delay).2.2 =
        urls.map (fun u => BatchEvent.attempt (pyStrip u))) := by
  constructor
  · intro hd
    rw [batch_events_eq]
    have h : urlEvents delay = fun u => [BatchEvent.attempt (pyStrip u), BatchEvent.sleep delay] := by
      funext u
      simp [urlEvents, hd]
    rw [h]
  · intro hd
    rw [batch_events_eq]
    have hnd : ¬(delay > 0) := by omega
    have h : urlEvents delay = fun u => [BatchEvent.attempt (pyStrip u)] := by
      funext u
      simp [urlEvents, hnd]
    rw [h]
    induction urls with
    | nil => rfl
    | cons a l ih => simp [List.flatMap_cons, ih]

/-- Claim C9, witness: with `delay = 1` there is a sleep after each of the
two attempts, the last included; with `delay = 0` there is none. -/
theorem batch_sleeps_every_attempt_witness :
    (download_pdfs_from_list envOk ["https://x.tn/a.pdf", "https://x.tn/b.pdf"] "out" 1).2.2 =
      [.attempt "https://x.tn/a.pdf", .sleep 1, .attempt "https://x.tn/b.pdf", .sleep 1] ∧
    (download_pdfs_from_list envOk ["https://x.tn/a.pdf"] "out" 0).2.2 =
      [.attempt "https://x.tn/a.pdf"] :=
  ⟨(batch_sleeps_every_attempt envOk ["https://x.tn/a.pdf", "https://x.tn/b.pdf"] "out" 1).1
      (by decide),
   (batch_sleeps_every_attempt envOk ["https://x.tn/a.pdf"] "out" 0).2 (by decide)⟩

/-- Claim C10: the strings recorded in the successes and failures lists
are the original input strings, untrimmed (each recorded string is an
element of the input list verbatim), while the fetcher is handed the
stripped strings. -/
theorem batch_records_original_strings (env : Env) (urls : List String) (dir : String)
    (delay : Int) :
    (∀ u ∈ (download_pdfs_from_list env urls dir delay).1, u ∈ urls) ∧
    (∀ u ∈ (download_pdfs_from_list env urls dir delay).2.1, u ∈ urls) ∧
    ((download_pdfs_from_list env urls dir delay).2.2).filterMap attemptUrl? =
      urls.map pyStrip := by
  refine ⟨fun u hu => ?_, fun u hu => ?_, batch_attempts_eq env dir delay urls⟩
  · rw [batch_succ_eq_filter] at hu
    exact (List.mem_filter.mp hu).1
  · rw [batch_fail_eq_filter] at hu
    exact (List.mem_filter.mp hu).1

/-- Claim C10, witness: a URL with surrounding spaces is recorded verbatim
in `failed` while the fetch call received the stripped string. -/
theorem batch_records_original_strings_witness :
    " https://x.tn/a.pdf " ∈ ([" https://x.tn/a.pdf "] : List String) ∧
    ((download_pdfs_from_list env404 [" https://x.tn/a.pdf "] "out" 1).2.2).filterMap attemptUrl? =
      ["https://x.tn/a.pdf"] :=
  ⟨(batch_records_original_strings env404 [" https://x.tn/a.pdf "] "out" 1).2.1
      " https://x.tn/a.pdf " (by decide),
   (batch_records_original_strings env404 [" https://x.tn/a.pdf "] "out" 1).2.2⟩

end PdfDl
